import Mathlib

/-!
Shallow embedding of `src/config.rs` of the `icm42670` sensor driver:
the seven configuration variant sets (AccelRange, GyroRange, PowerMode,
AccelOdr, GyroOdr, AccelBw, GyroBw), their `Bitfield` data (`BITMASK`,
`bits`), their fallible `TryFrom<u8>` decoders, their `Default` variants
and their scale-factor / frequency lookups.

Register bytes (`u8`) are embedded as `Nat`, quantified over `Fin 256`
where a claim ranges over every `u8`.  The Rust `f32` constant tables
are embedded as exact rationals (`ℚ`); every constant a theorem below
mentions is exactly representable in `f32`, so the rational values agree
with the `f32` values returned by the source.
-/

namespace ICM42670

/-- Modelled from the spec: the error type lives in `src/error.rs`, which
is not part of the sources given; the spec states a single error kind is
relevant to this layer, `InvalidDiscriminant`, "raised only by decode
operations, when a raw (masked) byte does not correspond to any
documented variant for that field". -/
inductive SensorError where
  | InvalidDiscriminant
  deriving DecidableEq, Repr

/-- Equality of decode results (`Except`) is decidable. -/
instance {ε α : Type} [DecidableEq ε] [DecidableEq α] :
    DecidableEq (Except ε α) := fun x y =>
  match x, y with
  | .ok a, .ok b =>
    if h : a = b then .isTrue (by rw [h])
    else .isFalse (fun hc => h (Except.ok.inj hc))
  | .error a, .error b =>
    if h : a = b then .isTrue (by rw [h])
    else .isFalse (fun hc => h (Except.error.inj hc))
  | .ok _, .error _ => .isFalse (fun hc => Except.noConfusion hc)
  | .error _, .ok _ => .isFalse (fun hc => Except.noConfusion hc)

/-! ## AccelRange (`src/config.rs`, `enum AccelRange` and its impls) -/

inductive AccelRange where
  | G2
  | G4
  | G8
  | G16
  deriving DecidableEq, Repr, Fintype

namespace AccelRange

/-- The Rust discriminant of each variant (`self as u8`):
`G2 = 3, G4 = 2, G8 = 1, G16 = 0`. -/
def discriminant : AccelRange → Nat
  | .G2 => 3
  | .G4 => 2
  | .G8 => 1
  | .G16 => 0

/-- `AccelRange::scale_factor`, Table 2 of the data sheet. -/
def scale_factor : AccelRange → ℚ
  | .G2 => 16384
  | .G4 => 8192
  | .G8 => 4096
  | .G16 => 2048

/-- `impl Bitfield for AccelRange`: `const BITMASK: u8 = 0b01100000`. -/
def BITMASK : Nat := 0b01100000

/-- `impl Bitfield for AccelRange`: `fn bits(self) = (self as u8) << 5`
(`ACCEL_UI_FS_SEL` occupies bits 6:5); `u8` shift truncates mod 256. -/
def bits (v : AccelRange) : Nat := (v.discriminant <<< 5) % 256

/-- `impl Default for AccelRange`. -/
def default : AccelRange := .G16

/-- `impl TryFrom<u8> for AccelRange`. -/
def try_from : Nat → Except SensorError AccelRange
  | 0 => .ok .G16
  | 1 => .ok .G8
  | 2 => .ok .G4
  | 3 => .ok .G2
  | _ => .error .InvalidDiscriminant

end AccelRange

/-! ## GyroRange (`src/config.rs`, `enum GyroRange` and its impls) -/

inductive GyroRange where
  | Deg250
  | Deg500
  | Deg1000
  | Deg2000
  deriving DecidableEq, Repr, Fintype

namespace GyroRange

/-- The Rust discriminant of each variant (`self as u8`):
`Deg250 = 3, Deg500 = 2, Deg1000 = 1, Deg2000 = 0`. -/
def discriminant : GyroRange → Nat
  | .Deg250 => 3
  | .Deg500 => 2
  | .Deg1000 => 1
  | .Deg2000 => 0

/-- `GyroRange::scale_factor`, Table 1 of the data sheet. -/
def scale_factor : GyroRange → ℚ
  | .Deg250 => 131
  | .Deg500 => 65.5
  | .Deg1000 => 32.8
  | .Deg2000 => 16.4

/-- `impl Bitfield for GyroRange`: `const BITMASK: u8 = 0b01100000`. -/
def BITMASK : Nat := 0b01100000

/-- `impl Bitfield for GyroRange`: `fn bits(self) = (self as u8) << 5`
(`GYRO_UI_FS_SEL` occupies bits 6:5). -/
def bits (v : GyroRange) : Nat := (v.discriminant <<< 5) % 256

/-- `impl Default for GyroRange`. -/
def default : GyroRange := .Deg2000

/-- `impl TryFrom<u8> for GyroRange`. -/
def try_from : Nat → Except SensorError GyroRange
  | 0 => .ok .Deg2000
  | 1 => .ok .Deg1000
  | 2 => .ok .Deg500
  | 3 => .ok .Deg250
  | _ => .error .InvalidDiscriminant

end GyroRange

/-! ## PowerMode (`src/config.rs`, `enum PowerMode` and its impls) -/

inductive PowerMode where
  | Sleep
  | Standby
  | AccelLowPower
  | AccelLowNoise
  | GyroLowNoise
  | SixAxisLowNoise
  | Idle
  deriving DecidableEq, Repr, Fintype

namespace PowerMode

/-- The Rust discriminant of each variant (`self as u8`):
`Sleep = 0b00000, Standby = 0b00100, AccelLowPower = 0b00010,
AccelLowNoise = 0b00011, GyroLowNoise = 0b01100,
SixAxisLowNoise = 0b01111, Idle = 0b10000`. -/
def discriminant : PowerMode → Nat
  | .Sleep => 0b00000
  | .Standby => 0b00100
  | .AccelLowPower => 0b00010
  | .AccelLowNoise => 0b00011
  | .GyroLowNoise => 0b01100
  | .SixAxisLowNoise => 0b01111
  | .Idle => 0b10000

/-- `impl Bitfield for PowerMode`: `const BITMASK: u8 = 0b00011111`. -/
def BITMASK : Nat := 0b00011111

/-- `impl Bitfield for PowerMode`: `fn bits(self) = self as u8`
(no shift; `GYRO_MODE` bits 3:2, `ACCEL_MODE` bits 1:0, idle bit 4). -/
def bits (v : PowerMode) : Nat := v.discriminant

/-- `impl Default for PowerMode`. -/
def default : PowerMode := .Sleep

/-- `impl TryFrom<u8> for PowerMode`: the match arms are exactly
`0b0000, 0b0100, 0b0010, 0b0011, 0b1100, 0b1111`; there is no arm for
`0b10000`, so `Idle` is never produced. -/
def try_from : Nat → Except SensorError PowerMode
  | 0b0000 => .ok .Sleep
  | 0b0100 => .ok .Standby
  | 0b0010 => .ok .AccelLowPower
  | 0b0011 => .ok .AccelLowNoise
  | 0b1100 => .ok .GyroLowNoise
  | 0b1111 => .ok .SixAxisLowNoise
  | _ => .error .InvalidDiscriminant

end PowerMode

/-! ## AccelOdr (`src/config.rs`, `enum AccelOdr` and its impls) -/

inductive AccelOdr where
  | Hz1600
  | Hz800
  | Hz400
  | Hz200
  | Hz100
  | Hz50
  | Hz25
  | Hz12_5
  | Hz6_25
  | Hz3_125
  | Hz1_5625
  deriving DecidableEq, Repr, Fintype

namespace AccelOdr

/-- The Rust discriminant of each variant (`self as u8`):
consecutive codes `0b0101` (1600 Hz) through `0b1111` (1.5625 Hz). -/
def discriminant : AccelOdr → Nat
  | .Hz1600 => 0b0101
  | .Hz800 => 0b0110
  | .Hz400 => 0b0111
  | .Hz200 => 0b1000
  | .Hz100 => 0b1001
  | .Hz50 => 0b1010
  | .Hz25 => 0b1011
  | .Hz12_5 => 0b1100
  | .Hz6_25 => 0b1101
  | .Hz3_125 => 0b1110
  | .Hz1_5625 => 0b1111

/-- `AccelOdr::as_f32`: the output data rate in Hz. -/
def as_f32 : AccelOdr → ℚ
  | .Hz1600 => 1600
  | .Hz800 => 800
  | .Hz400 => 400
  | .Hz200 => 200
  | .Hz100 => 100
  | .Hz50 => 50
  | .Hz25 => 25
  | .Hz12_5 => 12.5
  | .Hz6_25 => 6.25
  | .Hz3_125 => 3.125
  | .Hz1_5625 => 1.5625

/-- `impl Bitfield for AccelOdr`: `const BITMASK: u8 = 0b00001111`. -/
def BITMASK : Nat := 0b00001111

/-- `impl Bitfield for AccelOdr`: `fn bits(self) = self as u8`
(`ACCEL_ODR` occupies bits 3:0). -/
def bits (v : AccelOdr) : Nat := v.discriminant

/-- `impl Default for AccelOdr`. -/
def default : AccelOdr := .Hz800

/-- `impl TryFrom<u8> for AccelOdr`. -/
def try_from : Nat → Except SensorError AccelOdr
  | 0b0101 => .ok .Hz1600
  | 0b0110 => .ok .Hz800
  | 0b0111 => .ok .Hz400
  | 0b1000 => .ok .Hz200
  | 0b1001 => .ok .Hz100
  | 0b1010 => .ok .Hz50
  | 0b1011 => .ok .Hz25
  | 0b1100 => .ok .Hz12_5
  | 0b1101 => .ok .Hz6_25
  | 0b1110 => .ok .Hz3_125
  | 0b1111 => .ok .Hz1_5625
  | _ => .error .InvalidDiscriminant

end AccelOdr

/-! ## GyroOdr (`src/config.rs`, `enum GyroOdr` and its impls) -/

inductive GyroOdr where
  | Hz1600
  | Hz800
  | Hz400
  | Hz200
  | Hz100
  | Hz50
  | Hz25
  | Hz12_5
  deriving DecidableEq, Repr, Fintype

namespace GyroOdr

/-- The Rust discriminant of each variant (`self as u8`):
consecutive codes `0b0101` (1600 Hz) through `0b1100` (12.5 Hz). -/
def discriminant : GyroOdr → Nat
  | .Hz1600 => 0b0101
  | .Hz800 => 0b0110
  | .Hz400 => 0b0111
  | .Hz200 => 0b1000
  | .Hz100 => 0b1001
  | .Hz50 => 0b1010
  | .Hz25 => 0b1011
  | .Hz12_5 => 0b1100

/-- `GyroOdr::as_f32`: the output data rate in Hz. -/
def as_f32 : GyroOdr → ℚ
  | .Hz1600 => 1600
  | .Hz800 => 800
  | .Hz400 => 400
  | .Hz200 => 200
  | .Hz100 => 100
  | .Hz50 => 50
  | .Hz25 => 25
  | .Hz12_5 => 12.5

/-- `impl Bitfield for GyroOdr`: `const BITMASK: u8 = 0b00001111`. -/
def BITMASK : Nat := 0b00001111

/-- `impl Bitfield for GyroOdr`: `fn bits(self) = self as u8`
(`GYRO_ODR` occupies bits 3:0). -/
def bits (v : GyroOdr) : Nat := v.discriminant

/-- `impl Default for GyroOdr`. -/
def default : GyroOdr := .Hz800

/-- `impl TryFrom<u8> for GyroOdr`. -/
def try_from : Nat → Except SensorError GyroOdr
  | 0b0101 => .ok .Hz1600
  | 0b0110 => .ok .Hz800
  | 0b0111 => .ok .Hz400
  | 0b1000 => .ok .Hz200
  | 0b1001 => .ok .Hz100
  | 0b1010 => .ok .Hz50
  | 0b1011 => .ok .Hz25
  | 0b1100 => .ok .Hz12_5
  | _ => .error .InvalidDiscriminant

end GyroOdr

/-! ## GyroBw (`src/config.rs`, `enum GyroBw` and its impls) -/

inductive GyroBw where
  | Hz10000
  | Hz180
  | Hz121
  | Hz73
  | Hz53
  | Hz34
  | Hz25
  | Hz16
  deriving DecidableEq, Repr, Fintype

namespace GyroBw

/-- The Rust discriminant of each variant (`self as u8`):
codes `0b000` (filter bypassed) through `0b111` (16 Hz). -/
def discriminant : GyroBw → Nat
  | .Hz10000 => 0b000
  | .Hz180 => 0b001
  | .Hz121 => 0b010
  | .Hz73 => 0b011
  | .Hz53 => 0b100
  | .Hz34 => 0b101
  | .Hz25 => 0b110
  | .Hz16 => 0b111

/-- `GyroBw::as_f32`: the filter bandwidth in Hz
(`Hz10000` is the filter-bypass sentinel). -/
def as_f32 : GyroBw → ℚ
  | .Hz10000 => 10000
  | .Hz180 => 180
  | .Hz121 => 121
  | .Hz73 => 73
  | .Hz53 => 53
  | .Hz34 => 34
  | .Hz25 => 25
  | .Hz16 => 16

/-- `impl Bitfield for GyroBw`: `const BITMASK: u8 = 0b00000111`. -/
def BITMASK : Nat := 0b00000111

/-- `impl Bitfield for GyroBw`: `fn bits(self) = self as u8`
(`GYRO_UI_FILT_BW` occupies bits 2:0). -/
def bits (v : GyroBw) : Nat := v.discriminant

/-- `impl Default for GyroBw`. -/
def default : GyroBw := .Hz180

/-- `impl TryFrom<u8> for GyroBw`. -/
def try_from : Nat → Except SensorError GyroBw
  | 0b000 => .ok .Hz10000
  | 0b001 => .ok .Hz180
  | 0b010 => .ok .Hz121
  | 0b011 => .ok .Hz73
  | 0b100 => .ok .Hz53
  | 0b101 => .ok .Hz34
  | 0b110 => .ok .Hz25
  | 0b111 => .ok .Hz16
  | _ => .error .InvalidDiscriminant

end GyroBw

/-! ## AccelBw (`src/config.rs`, `enum AccelBw` and its impls) -/

inductive AccelBw where
  | Hz10000
  | Hz180
  | Hz121
  | Hz73
  | Hz53
  | Hz34
  | Hz25
  | Hz16
  deriving DecidableEq, Repr, Fintype

namespace AccelBw

/-- The Rust discriminant of each variant (`self as u8`):
codes `0b000` (filter bypassed) through `0b111` (16 Hz). -/
def discriminant : AccelBw → Nat
  | .Hz10000 => 0b000
  | .Hz180 => 0b001
  | .Hz121 => 0b010
  | .Hz73 => 0b011
  | .Hz53 => 0b100
  | .Hz34 => 0b101
  | .Hz25 => 0b110
  | .Hz16 => 0b111

/-- `AccelBw::as_f32`: the filter bandwidth in Hz
(`Hz10000` is the filter-bypass sentinel). -/
def as_f32 : AccelBw → ℚ
  | .Hz10000 => 10000
  | .Hz180 => 180
  | .Hz121 => 121
  | .Hz73 => 73
  | .Hz53 => 53
  | .Hz34 => 34
  | .Hz25 => 25
  | .Hz16 => 16

/-- `impl Bitfield for AccelBw`: `const BITMASK: u8 = 0b00000111`. -/
def BITMASK : Nat := 0b00000111

/-- `impl Bitfield for AccelBw`: `fn bits(self) = self as u8`
(`ACCEL_UI_FILT_BW` occupies bits 2:0). -/
def bits (v : AccelBw) : Nat := v.discriminant

/-- `impl Default for AccelBw`. -/
def default : AccelBw := .Hz180

/-- `impl TryFrom<u8> for AccelBw`. -/
def try_from : Nat → Except SensorError AccelBw
  | 0b000 => .ok .Hz10000
  | 0b001 => .ok .Hz180
  | 0b010 => .ok .Hz121
  | 0b011 => .ok .Hz73
  | 0b100 => .ok .Hz53
  | 0b101 => .ok .Hz34
  | 0b110 => .ok .Hz25
  | 0b111 => .ok .Hz16
  | _ => .error .InvalidDiscriminant

end AccelBw

/-- `Except.isOk` specialised to decode results: true on `.ok _`. -/
def decodeOk {α : Type} (r : Except SensorError α) : Bool :=
  match r with
  | .ok _ => true
  | .error _ => false

/-- The discriminant carried by a successful decode, `none` on failure. -/
def decodedDisc {α : Type} (disc : α → Nat) (r : Except SensorError α) :
    Option Nat :=
  match r with
  | .ok v => some (disc v)
  | .error _ => none

/-- The frequency / scale metadata of a successful decode, `none` on
failure. -/
def decodedFreq {α : Type} (f : α → ℚ) (r : Except SensorError α) :
    Option ℚ :=
  match r with
  | .ok v => some (f v)
  | .error _ => none

/-! ## Theorems about the claims -/

/-- C1: the round-trip `decode (encode v &&& BITMASK >>> shift) = Ok v`
FAILS on the code for `PowerMode.Idle`: its encoded bits survive the mask
unchanged as `0b10000`, yet `try_from` has no arm for `0b10000` and
returns `InvalidDiscriminant` instead of `Ok Idle`. -/
theorem powerMode_idle_roundtrip_fails :
    PowerMode.bits PowerMode.Idle &&& PowerMode.BITMASK = 0b10000 ∧
    PowerMode.try_from ((PowerMode.bits PowerMode.Idle &&&
        PowerMode.BITMASK) >>> 0) =
      .error .InvalidDiscriminant := by
  decide

set_option maxRecDepth 8192 in
/-- C2: contrary to the claim, `PowerMode.try_from` accepts exactly SIX
values {0, 2, 3, 4, 12, 15}, not seven: the seventh documented value
`0b10000` (`Idle`'s discriminant) is rejected with `InvalidDiscriminant`,
like the other 26 five-bit patterns. -/
theorem powerMode_decode_accepts_six_not_seven :
    PowerMode.try_from 0b10000 = .error .InvalidDiscriminant ∧
    ∀ b : Fin 256,
      (decodeOk (PowerMode.try_from b.val) =
        decide (b.val = 0 ∨ b.val = 2 ∨ b.val = 3 ∨ b.val = 4 ∨
          b.val = 12 ∨ b.val = 15)) ∧
      (decodeOk (PowerMode.try_from b.val) = true ∨
        PowerMode.try_from b.val = .error .InvalidDiscriminant) := by
  decide

/-- C3: for every variant of every variant set, `bits` (the encode
operation, total by construction) yields a byte with no bit outside the
set's `BITMASK`, and its masked value is the variant's discriminant
shifted into the field's bit position (shift 5 for the ranges, 0 for the
rest). -/
theorem encode_mask_containment :
    (∀ v : AccelRange, AccelRange.bits v &&& (255 ^^^ AccelRange.BITMASK) = 0 ∧
      AccelRange.bits v &&& AccelRange.BITMASK = AccelRange.discriminant v <<< 5) ∧
    (∀ v : GyroRange, GyroRange.bits v &&& (255 ^^^ GyroRange.BITMASK) = 0 ∧
      GyroRange.bits v &&& GyroRange.BITMASK = GyroRange.discriminant v <<< 5) ∧
    (∀ v : PowerMode, PowerMode.bits v &&& (255 ^^^ PowerMode.BITMASK) = 0 ∧
      PowerMode.bits v &&& PowerMode.BITMASK = PowerMode.discriminant v <<< 0) ∧
    (∀ v : AccelOdr, AccelOdr.bits v &&& (255 ^^^ AccelOdr.BITMASK) = 0 ∧
      AccelOdr.bits v &&& AccelOdr.BITMASK = AccelOdr.discriminant v <<< 0) ∧
    (∀ v : GyroOdr, GyroOdr.bits v &&& (255 ^^^ GyroOdr.BITMASK) = 0 ∧
      GyroOdr.bits v &&& GyroOdr.BITMASK = GyroOdr.discriminant v <<< 0) ∧
    (∀ v : AccelBw, AccelBw.bits v &&& (255 ^^^ AccelBw.BITMASK) = 0 ∧
      AccelBw.bits v &&& AccelBw.BITMASK = AccelBw.discriminant v <<< 0) ∧
    (∀ v : GyroBw, GyroBw.bits v &&& (255 ^^^ GyroBw.BITMASK) = 0 ∧
      GyroBw.bits v &&& GyroBw.BITMASK = GyroBw.discriminant v <<< 0) := by
  decide

set_option maxRecDepth 8192 in
/-- C4: for every byte `b`, decode of `AccelBw`/`GyroBw` succeeds exactly
when `b < 8` (every 3-bit input) and decode of `AccelRange`/`GyroRange`
succeeds exactly when `b < 4` (every 2-bit input); any other input is
answered with the `InvalidDiscriminant` error. -/
theorem decode_totality_boundary :
    ∀ b : Fin 256,
      (decodeOk (AccelBw.try_from b.val) = decide (b.val < 8)) ∧
      (b.val < 8 ∨ AccelBw.try_from b.val = .error .InvalidDiscriminant) ∧
      (decodeOk (GyroBw.try_from b.val) = decide (b.val < 8)) ∧
      (b.val < 8 ∨ GyroBw.try_from b.val = .error .InvalidDiscriminant) ∧
      (decodeOk (AccelRange.try_from b.val) = decide (b.val < 4)) ∧
      (b.val < 4 ∨ AccelRange.try_from b.val = .error .InvalidDiscriminant) ∧
      (decodeOk (GyroRange.try_from b.val) = decide (b.val < 4)) ∧
      (b.val < 4 ∨ GyroRange.try_from b.val = .error .InvalidDiscriminant) := by
  decide

set_option maxRecDepth 8192 in
/-- C5: for every byte `b`, `AccelOdr` decode succeeds exactly on the 11
nibbles `0b0101`–`0b1111` and `GyroOdr` decode exactly on the 8 nibbles
`0b0101`–`0b1100`; every other input is answered with the
`InvalidDiscriminant` error. -/
theorem odr_decode_domain :
    ∀ b : Fin 256,
      (decodeOk (AccelOdr.try_from b.val) = decide (5 ≤ b.val ∧ b.val ≤ 15)) ∧
      ((5 ≤ b.val ∧ b.val ≤ 15) ∨
        AccelOdr.try_from b.val = .error .InvalidDiscriminant) ∧
      (decodeOk (GyroOdr.try_from b.val) = decide (5 ≤ b.val ∧ b.val ≤ 12)) ∧
      ((5 ≤ b.val ∧ b.val ≤ 12) ∨
        GyroOdr.try_from b.val = .error .InvalidDiscriminant) := by
  decide

/-- C6: each variant set's default encodes to the hardware power-on
value: `PowerMode.default = Sleep` encodes to `0b00000`; the defaults of
`AccelRange` (`G16`) and `GyroRange` (`Deg2000`) have discriminant 0 and
encode to 0 after the shift into bits 6:5; the defaults of `AccelOdr`
and `GyroOdr` (`Hz800`) encode to `0b0110`. -/
theorem default_encodings :
    PowerMode.default = .Sleep ∧ PowerMode.bits PowerMode.default = 0b00000 ∧
    AccelRange.default = .G16 ∧
    AccelRange.discriminant AccelRange.default = 0 ∧
    AccelRange.bits AccelRange.default = 0 ∧
    GyroRange.default = .Deg2000 ∧
    GyroRange.discriminant GyroRange.default = 0 ∧
    GyroRange.bits GyroRange.default = 0 ∧
    AccelOdr.default = .Hz800 ∧ AccelOdr.bits AccelOdr.default = 0b0110 ∧
    GyroOdr.default = .Hz800 ∧ GyroOdr.bits GyroOdr.default = 0b0110 := by
  decide

/-- C7: `AccelRange` and `GyroRange` have exactly four variants, with
discriminants 0–3 assigned inversely to physical range magnitude
(`G16`/`Deg2000` = 0 … `G2`/`Deg250` = 3); encode shifts the
discriminant left by 5, and the result lies within the mask
`0b01100000`. -/
theorem range_variants_and_encoding :
    Fintype.card AccelRange = 4 ∧ Fintype.card GyroRange = 4 ∧
    AccelRange.discriminant .G16 = 0 ∧ AccelRange.discriminant .G8 = 1 ∧
    AccelRange.discriminant .G4 = 2 ∧ AccelRange.discriminant .G2 = 3 ∧
    GyroRange.discriminant .Deg2000 = 0 ∧ GyroRange.discriminant .Deg1000 = 1 ∧
    GyroRange.discriminant .Deg500 = 2 ∧ GyroRange.discriminant .Deg250 = 3 ∧
    (∀ v : AccelRange, AccelRange.bits v = AccelRange.discriminant v <<< 5 ∧
      AccelRange.bits v &&& 0b01100000 = AccelRange.bits v) ∧
    (∀ v : GyroRange, GyroRange.bits v = GyroRange.discriminant v <<< 5 ∧
      GyroRange.bits v &&& 0b01100000 = GyroRange.bits v) := by
  decide

/-- C8: the scale-factor and frequency lookups (total functions by
construction) return the exact documented constants at the four named
points: `AccelRange.G16.scale_factor = 2048`,
`GyroRange.Deg250.scale_factor = 131`,
`AccelOdr.Hz1_5625.as_f32 = 1.5625` and
`GyroBw.Hz10000.as_f32 = 10000` (the filter-bypass sentinel); all four
constants are exactly representable in `f32`. -/
theorem scale_factor_exactness :
    AccelRange.scale_factor .G16 = 2048 ∧
    GyroRange.scale_factor .Deg250 = 131 ∧
    AccelOdr.as_f32 .Hz1_5625 = 1.5625 ∧
    GyroBw.as_f32 .Hz10000 = 10000 := by
  refine ⟨rfl, rfl, rfl, rfl⟩

/-- C9 counterexample: decode followed by encode is NOT the identity on
accepted inputs: `AccelRange.try_from 1 = Ok G8` but encoding `G8`
yields `32` (the discriminant `1` shifted into bits 6:5), not `1`. -/
theorem accelRange_decode_encode_not_identity :
    AccelRange.try_from 1 = .ok .G8 ∧
    AccelRange.bits .G8 = 32 ∧ AccelRange.bits .G8 ≠ 1 := by
  decide

set_option maxRecDepth 8192 in
/-- C9 amended: for every variant set and every byte `b`, if decode of
`b` succeeds with variant `v` then `v`'s discriminant is exactly `b`
(so for the sets whose field shift is 0 — `PowerMode`, the ODRs and the
bandwidths — `bits v = b` exactly, while for the ranges
`bits v = b <<< 5`). -/
theorem decode_yields_matching_discriminant :
    ∀ b : Fin 256,
      (decodedDisc AccelRange.discriminant (AccelRange.try_from b.val) = none ∨
        decodedDisc AccelRange.discriminant (AccelRange.try_from b.val) = some b.val) ∧
      (decodedDisc GyroRange.discriminant (GyroRange.try_from b.val) = none ∨
        decodedDisc GyroRange.discriminant (GyroRange.try_from b.val) = some b.val) ∧
      (decodedDisc PowerMode.bits (PowerMode.try_from b.val) = none ∨
        decodedDisc PowerMode.bits (PowerMode.try_from b.val) = some b.val) ∧
      (decodedDisc AccelOdr.bits (AccelOdr.try_from b.val) = none ∨
        decodedDisc AccelOdr.bits (AccelOdr.try_from b.val) = some b.val) ∧
      (decodedDisc GyroOdr.bits (GyroOdr.try_from b.val) = none ∨
        decodedDisc GyroOdr.bits (GyroOdr.try_from b.val) = some b.val) ∧
      (decodedDisc AccelBw.bits (AccelBw.try_from b.val) = none ∨
        decodedDisc AccelBw.bits (AccelBw.try_from b.val) = some b.val) ∧
      (decodedDisc GyroBw.bits (GyroBw.try_from b.val) = none ∨
        decodedDisc GyroBw.bits (GyroBw.try_from b.val) = some b.val) := by
  decide

set_option maxRecDepth 8192 in
/-- C10: `GyroOdr` is a restriction of `AccelOdr`: on every nibble
`0b0101`–`0b1100` both decoders succeed and produce variants with the
same encoded discriminant and the same frequency in Hz; `AccelOdr`
additionally accepts `0b1101`–`0b1111`, where `GyroOdr` fails. -/
theorem gyroOdr_restricts_accelOdr :
    (∀ b : Fin 256,
      (decodedDisc GyroOdr.bits (GyroOdr.try_from b.val) =
        if 5 ≤ b.val ∧ b.val ≤ 12 then
          decodedDisc AccelOdr.bits (AccelOdr.try_from b.val) else none) ∧
      (decodeOk (AccelOdr.try_from b.val) = decide (5 ≤ b.val ∧ b.val ≤ 15)) ∧
      (decodeOk (GyroOdr.try_from b.val) = decide (5 ≤ b.val ∧ b.val ≤ 12))) ∧
    (∀ g : GyroOdr,
      decodedFreq AccelOdr.as_f32 (AccelOdr.try_from (GyroOdr.bits g)) =
        some (GyroOdr.as_f32 g)) := by
  refine ⟨by decide, ?_⟩
  intro g
  cases g <;> rfl

end ICM42670
